import Mathlib

/-
Shallow embedding of the `MessagingService` class of the
`nvigne/iframe-communicator` repository.

The repository contains two generations of the same class:

* `src/connection.ts` (namespace `Conn` below): channels have no `state`
  field, `postMessage` posts to every channel, and `connectToFrame` is a
  `setInterval` callback that unconditionally inserts a fresh channel.
* the revised class inside `src/unnamed/part_002` (namespace `Conn2`
  below): channels carry a handshake `state` (`"SYN"`, `"SYN+ACK"`,
  `"ACK"`, `"FIN"`), `postMessage` skips non-initialized channels, and
  `connectToFrame` is a rescheduled `setTimeout` callback that returns
  early when some channel progressed past `"SYN"` and otherwise clears
  the registry before inserting a fresh channel.

JavaScript `Map` objects are modelled as insertion-ordered association
lists; `WindowProxy` handles are opaque `Nat` identifiers; nullable or
`undefined` values are `Option`; a thrown `Error` is `Except.error`.
-/

/-- A JavaScript value, as far as the messaging service inspects one.
`jsObj` carries exactly the fields the class ever reads off an inbound
payload (`token`, `state`, `source`, `frame`, `data`); a field that the
sender did not set is `none` (JS `undefined`). -/
inductive JsData where
  | jsNull : JsData
  | jsUndef : JsData
  | jsNum : Int → JsData
  | jsStr : String → JsData
  | jsBool : Bool → JsData
  | jsObj : Option String → Option String → Option String → Option Int → JsData → JsData
deriving DecidableEq, Repr

namespace JsData

/-- JavaScript truthiness of a value (`if (event.data)`); `NaN` is not
modelled, otherwise exactly the JS falsy values are `false` here. -/
def truthy : JsData → Bool
  | jsNull => false
  | jsUndef => false
  | jsNum n => n != 0
  | jsStr s => s != ""
  | jsBool b => b
  | jsObj _ _ _ _ _ => true

/-- Reading `message.token` after the `as`-cast: `undefined` on non-objects. -/
def tokenF : JsData → Option String
  | jsObj t _ _ _ _ => t
  | _ => none

/-- Reading `message.state` after the `as`-cast. -/
def stateF : JsData → Option String
  | jsObj _ st _ _ _ => st
  | _ => none

/-- Reading `message.source` after the `as`-cast. -/
def sourceF : JsData → Option String
  | jsObj _ _ src _ _ => src
  | _ => none

/-- Reading `message.frame` after the `as`-cast. -/
def frameF : JsData → Option Int
  | jsObj _ _ _ fr _ => fr
  | _ => none

/-- Reading `message.data` after the `as`-cast (the application payload). -/
def payloadF : JsData → JsData
  | jsObj _ _ _ _ d => d
  | _ => jsUndef

/-- Truthiness of the `state` field (`if (initializationMessage.state)`):
present and a non-empty string. -/
def stateTruthy (d : JsData) : Bool :=
  match d.stateF with
  | some s => s != ""
  | none => false

end JsData

/-- An inbound `MessageEvent`: its `origin`, its `data`, and its `source`
reply capability (`event.source as WindowProxy`, `none` when absent). -/
structure Event where
  origin : String
  data : JsData
  source : Option Nat
deriving DecidableEq, Repr

/-- A JavaScript `Map<string, α>` whose keys may also be the `undefined`
value (reading `message.token` off a malformed payload yields
`undefined`, which is a legal `Map` key): an insertion-ordered
association list. -/
abbrev JsMap (α : Type) := List (Option String × α)

namespace JsMap

/-- `Map.prototype.has`. -/
def hasKey {α : Type} (m : JsMap α) (k : Option String) : Bool :=
  m.any (fun p => p.1 == k)

/-- `Map.prototype.get` (`undefined` when the key is absent). -/
def getKey? {α : Type} (m : JsMap α) (k : Option String) : Option α :=
  (m.find? (fun p => p.1 == k)).map (fun p => p.2)

/-- `Map.prototype.set`: replace in place when the key exists (insertion
order kept), append otherwise. -/
def setKey {α : Type} (m : JsMap α) (k : Option String) (v : α) : JsMap α :=
  if hasKey m k then m.map (fun p => if p.1 == k then (k, v) else p)
  else m ++ [(k, v)]

end JsMap

/-- The `UNKNOWN_DESTINATION` sentinel constant. -/
def UNKNOWN_DESTINATION : String := "UNKNOWN_DESTINATION"

/-- An outbound `ChannelInitializationMessage` (handshake message).
`frame` is `Option Int`: `message.frame + 1` on a payload without a
`frame` field is JS `NaN`, modelled as `none`. -/
structure InitMsg where
  source : String
  token : Option String
  state : String
  frame : Option Int
deriving DecidableEq, Repr

/-- An outbound `ChannelMessage` (application message). -/
structure ChanMsg where
  token : Option String
  data : JsData
deriving DecidableEq, Repr

/-- A message actually posted to a peer window (the argument of
`channel.window.postMessage(data, this.target)`), tagged with the
receiving window handle. -/
inductive Sent where
  | handshake : InitMsg → Nat → Sent
  | applicationMsg : ChanMsg → Nat → Sent
deriving DecidableEq, Repr

/-- The errors `postMessage` can throw. -/
inductive PostError where
  | noChannel
  | noInitializedChannel
deriving DecidableEq, Repr

/-- The error the listener throws on an origin mismatch. -/
inductive ListenerError where
  | originMismatch
deriving DecidableEq, Repr

/-- The constructor's configuration error (wildcard target). -/
inductive ConfigError where
  | wildcardTarget
deriving DecidableEq, Repr

namespace Conn

/-- A `Channel` record of `src/connection.ts`. -/
structure Channel where
  destination : Option String
  initialized : Bool
  token : Option String
  window : Option Nat
deriving DecidableEq, Repr

/-- The mutable state of a `MessagingService` instance of
`src/connection.ts`. `frameWindow` models the optional `frame` field
together with its `contentWindow` (itself nullable); `interval` is the
stored timer handle; `timerStopped` records whether `clearInterval` has
been called on it. -/
structure ServiceState where
  id : String
  target : String
  frameWindow : Option (Option Nat)
  interval : Option Nat
  timerStopped : Bool
  handlers : List Nat
  channels : JsMap Channel
deriving DecidableEq, Repr

/-- JS truthiness of `this.interval` (a timer handle number). -/
def intervalTruthy (s : ServiceState) : Bool :=
  match s.interval with
  | some n => n != 0
  | none => false

/-- `postMessageInternal` for a handshake payload: no send when the
channel has no window (`if (!channel.window) return`), otherwise one
post to that window. -/
def postMessageInternalH (ch : Channel) (m : InitMsg) : List Sent :=
  match ch.window with
  | none => []
  | some w => [Sent.handshake m w]

/-- `postMessageInternal` for an application payload. -/
def postMessageInternalA (ch : Channel) (m : ChanMsg) : List Sent :=
  match ch.window with
  | none => []
  | some w => [Sent.applicationMsg m w]

/-- The constructor: rejects the wildcard target, otherwise starts with
empty handler and channel maps; the retry interval is armed only when a
frame reference was supplied. -/
def mkService (target : String) (frameWindow : Option (Option Nat)) (id : String)
    (handle : Nat) : Except ConfigError ServiceState :=
  if target == "*" then .error .wildcardTarget
  else .ok
    { id := id, target := target, frameWindow := frameWindow
      interval := if frameWindow.isSome then some handle else none
      timerStopped := false, handlers := [], channels := [] }

/-- `addMessageHandler`: registers the handler under a fresh numeric id
(`Map.set`; re-registering an existing id keeps the id list unchanged). -/
def addMessageHandler (s : ServiceState) (handlerId : Nat) : ServiceState :=
  if s.handlers.contains handlerId then s
  else { s with handlers := s.handlers ++ [handlerId] }

/-- `removeMessageHandler`. -/
def removeMessageHandler (s : ServiceState) (handlerId : Nat) : ServiceState :=
  if s.handlers.contains handlerId then
    { s with handlers := s.handlers.filter (fun h => h != handlerId) }
  else s

/-- `AtLeastOneInitializedChannel`: the `forEach` flag scan, verbatim. -/
def AtLeastOneInitializedChannel (s : ServiceState) : Bool :=
  s.channels.foldl (fun acc p => if p.2.initialized then true else acc) false

/-- `postMessage`: throws `NoChannel` on an empty registry, then
`NoInitializedChannel` when no channel is initialized, otherwise posts
`{token, data}` to every channel (this generation does not skip
non-initialized channels). It never mutates the instance, so the state
is returned unchanged. -/
def postMessage (s : ServiceState) (d : JsData) :
    Except PostError (ServiceState × List Sent) :=
  if s.channels.length == 0 then .error .noChannel
  else if !(AtLeastOneInitializedChannel s) then .error .noInitializedChannel
  else .ok (s, s.channels.foldr
    (fun p acc => postMessageInternalA p.2 { token := p.2.token, data := d } ++ acc) [])

/-- The error `connectToFrame` throws when the frame or its
`contentWindow` is missing. -/
inductive FrameError where
  | noContentWindow
deriving DecidableEq, Repr

/-- `connectToFrame` (the `setInterval` callback): throws without a
frame `contentWindow`; otherwise mints a token (a parameter here, the
source draws it from `Math.random`), inserts a fresh non-initialized
channel with the `UNKNOWN_DESTINATION` sentinel, and posts a `SYN`
handshake with `frame: 1`. -/
def connectToFrame (s : ServiceState) (token : String) :
    Except FrameError (ServiceState × List Sent) :=
  match s.frameWindow with
  | none => .error .noContentWindow
  | some none => .error .noContentWindow
  | some (some w) =>
    let channel : Channel :=
      { token := some token, destination := some UNKNOWN_DESTINATION
        initialized := false, window := some w }
    let s1 := { s with channels := JsMap.setKey s.channels (some token) channel }
    .ok (s1, postMessageInternalH channel
      { source := s.id, token := some token, state := "SYN", frame := some 1 })

/-- The private `initialize` method of `src/connection.ts` (renamed):
processes an inbound handshake message, returning the new state and the
posted replies. -/
def initializeChannel (s : ServiceState) (ev : Event) : ServiceState × List Sent :=
  let m := ev.data
  if m.stateF == some "SYN+ACK" then
    if JsMap.hasKey s.channels m.tokenF then
      match JsMap.getKey? s.channels m.tokenF with
      | none => (s, [])
      | some channel =>
        if channel.initialized then (s, [])
        else
          let updated : Channel :=
            { token := m.tokenF, destination := m.sourceF
              initialized := true, window := channel.window }
          let s1 := { s with channels := JsMap.setKey s.channels m.tokenF updated }
          let sent := postMessageInternalH updated
            { token := m.tokenF, source := s.id, state := "ACK"
              frame := m.frameF.map (fun k => k + 1) }
          (if intervalTruthy s1 then { s1 with timerStopped := true } else s1, sent)
    else (s, [])
  else if m.stateF == some "SYN" then
    let updated : Channel :=
      { token := m.tokenF, destination := some UNKNOWN_DESTINATION
        initialized := false, window := ev.source }
    let s1 := { s with channels := JsMap.setKey s.channels m.tokenF updated }
    (s1, postMessageInternalH updated
      { token := m.tokenF, source := s.id, state := "SYN+ACK"
        frame := m.frameF.map (fun k => k + 1) })
  else if m.stateF == some "ACK" then
    if JsMap.hasKey s.channels m.tokenF then
      match JsMap.getKey? s.channels m.tokenF with
      | none => (s, [])
      | some channel =>
        if channel.initialized then (s, [])
        else
          let updated : Channel :=
            { token := m.tokenF, destination := m.sourceF
              initialized := true, window := channel.window }
          ({ s with channels := JsMap.setKey s.channels m.tokenF updated }, [])
    else (s, [])
  else (s, [])

/-- Run the registered handlers in insertion order on the dispatched
data. A handler that throws (`fails h = true`) is itself invoked, but
its exception escapes `Map.prototype.forEach`, so the handlers after it
are not run; the `Bool` records the escaped exception. -/
def runHandlers (fails : Nat → Bool) (d : JsData) : List Nat → List (Nat × JsData) × Bool
  | [] => ([], false)
  | h :: hs =>
    if fails h then ([(h, d)], true)
    else ((h, d) :: (runHandlers fails d hs).1, (runHandlers fails d hs).2)

/-- `dispatchEvent`: drops a message whose token has no channel entry,
otherwise invokes every registered handler with `message.data`. It
never mutates the instance; the result is the invocation list and
whether a handler exception escaped. -/
def dispatchEvent (fails : Nat → Bool) (s : ServiceState) (msg : JsData) :
    List (Nat × JsData) × Bool :=
  if JsMap.hasKey s.channels msg.tokenF then
    runHandlers fails msg.payloadF s.handlers
  else ([], false)

/-- Everything one call of the message listener produces. -/
structure ListenerOut where
  state : ServiceState
  sent : List Sent
  invoked : List (Nat × JsData)
  handlerThrew : Bool
deriving DecidableEq, Repr

/-- The `listener`: throws on an origin mismatch before anything else;
a falsy `event.data` is ignored; a payload with a truthy `state` field
goes to the handshake handler, anything else to dispatch. -/
def listener (fails : Nat → Bool) (s : ServiceState) (ev : Event) :
    Except ListenerError ListenerOut :=
  if ev.origin != s.target then .error .originMismatch
  else if ev.data.truthy then
    if ev.data.stateTruthy then
      .ok { state := (initializeChannel s ev).1, sent := (initializeChannel s ev).2
            invoked := [], handlerThrew := false }
    else
      .ok { state := s, sent := []
            invoked := (dispatchEvent fails s ev.data).1
            handlerThrew := (dispatchEvent fails s ev.data).2 }
  else .ok { state := s, sent := [], invoked := [], handlerThrew := false }

/-- The states a `src/connection.ts` service instance can reach, under
the assumption that no inbound event announces the literal
`UNKNOWN_DESTINATION` sentinel as its sender identity. `postMessage`
and `dispatchEvent` never mutate the instance, so they contribute no
step. -/
inductive Reachable : ServiceState → Prop where
  | construct : ∀ target fw id handle s,
      mkService target fw id handle = .ok s → Reachable s
  | addH : ∀ s handlerId, Reachable s → Reachable (addMessageHandler s handlerId)
  | removeH : ∀ s handlerId, Reachable s → Reachable (removeMessageHandler s handlerId)
  | connect : ∀ s token s1 out, Reachable s →
      connectToFrame s token = .ok (s1, out) → Reachable s1
  | listen : ∀ fails s ev out, Reachable s →
      ev.data.sourceF ≠ some UNKNOWN_DESTINATION →
      listener fails s ev = .ok out → Reachable out.state

end Conn

/-- The error the revised `initialize` method throws when `Map.get`
returns `undefined` right after `Map.has` succeeded (unreachable with a
consistent map; kept for fidelity). -/
inductive InitError where
  | unexistingChannel
deriving DecidableEq, Repr

namespace Conn2

/-- A `Channel` record of the revised class in `src/unnamed/part_002`:
this generation also tracks the handshake `state` per channel. -/
structure Channel where
  destination : Option String
  initialized : Bool
  token : Option String
  window : Option Nat
  state : String
deriving DecidableEq, Repr

/-- The mutable state of a revised `MessagingService` instance.
`interval` holds the `setTimeout` handle of `delayConnectToFrame`;
`timerStopped` records a `clearInterval` call on it. The frame
reference itself is threaded to `connectToFrame` as the `setTimeout`
argument and therefore appears as a parameter there, not here. -/
structure ServiceState where
  id : String
  target : String
  interval : Option Nat
  timerStopped : Bool
  handlers : List Nat
  channels : JsMap Channel
deriving DecidableEq, Repr

/-- JS truthiness of `this.interval`. -/
def intervalTruthy (s : ServiceState) : Bool :=
  match s.interval with
  | some n => n != 0
  | none => false

/-- `postMessageInternal` for a handshake payload (revised class): no
send when the channel has no window, otherwise one post. -/
def postMessageInternalH (ch : Channel) (m : InitMsg) : List Sent :=
  match ch.window with
  | none => []
  | some w => [Sent.handshake m w]

/-- The constructor of the revised class: rejects the wildcard target;
`delayConnectToFrame` arms the one-shot bootstrap timer only when a
frame reference was supplied. -/
def mkService (target : String) (hasFrame : Bool) (id : String) (handle : Nat) :
    Except ConfigError ServiceState :=
  if target == "*" then .error .wildcardTarget
  else .ok
    { id := id, target := target
      interval := if hasFrame then some handle else none
      timerStopped := false, handlers := [], channels := [] }

/-- `addMessageHandler` of the revised class. -/
def addMessageHandler (s : ServiceState) (handlerId : Nat) : ServiceState :=
  if s.handlers.contains handlerId then s
  else { s with handlers := s.handlers ++ [handlerId] }

/-- `removeMessageHandler` of the revised class. -/
def removeMessageHandler (s : ServiceState) (handlerId : Nat) : ServiceState :=
  if s.handlers.contains handlerId then
    { s with handlers := s.handlers.filter (fun h => h != handlerId) }
  else s

/-- `AtLeastOneInitializedChannel` of the revised class. -/
def AtLeastOneInitializedChannel (s : ServiceState) : Bool :=
  s.channels.foldl (fun acc p => if p.2.initialized then true else acc) false

/-- One iteration of the revised `postMessage` loop body on one channel:
`none` when the channel is skipped for not being initialized, otherwise
the wrapped message together with the window it is delivered to
(`delivered = none` models `postMessageInternal` returning without a
send because `channel.window` is absent). -/
structure Attempt where
  channel : Channel
  msg : ChanMsg
  delivered : Option Nat
deriving DecidableEq, Repr

/-- The loop body of the revised `postMessage` on a single channel. -/
def sendToChannel (d : JsData) (ch : Channel) : Option Attempt :=
  if ch.initialized then
    some { channel := ch, msg := { token := ch.token, data := d }, delivered := ch.window }
  else none

/-- The revised `postMessage`: same two thrown errors, then posts
`{token, data}` to each channel, skipping non-initialized ones. -/
def postMessage (s : ServiceState) (d : JsData) : Except PostError (List Attempt) :=
  if s.channels.length == 0 then .error .noChannel
  else if !(AtLeastOneInitializedChannel s) then .error .noInitializedChannel
  else .ok (s.channels.filterMap (fun p => sendToChannel d p.2))

/-- The revised `connectToFrame` (the `setTimeout` callback): if any
channel has moved past `"SYN"` it returns with no effect; otherwise it
clears the registry, inserts one fresh `"SYN"` channel under a newly
minted token, posts the `SYN` handshake, and re-arms the timer via
`delayConnectToFrame` (the fresh token, the frame `contentWindow` read
at fire time, and the new timer handle are parameters). -/
def connectToFrame (s : ServiceState) (token : String) (contentWindow : Option Nat)
    (newHandle : Nat) : ServiceState × List Sent :=
  if s.channels.any (fun p => p.2.state != "SYN") then (s, [])
  else
    let channel : Channel :=
      { token := some token, destination := some UNKNOWN_DESTINATION
        initialized := false, window := contentWindow, state := "SYN" }
    let s1 := { s with channels := JsMap.setKey ([] : JsMap Channel) (some token) channel }
    let sent := postMessageInternalH channel
      { source := s.id, token := some token, state := "SYN", frame := some 1 }
    ({ s1 with interval := some newHandle }, sent)

/-- The revised private `initialize` method (renamed): unlike the
`src/connection.ts` generation it has no already-initialized guard on
`SYN+ACK`/`ACK`, and it throws when `Map.get` yields `undefined` for a
key `Map.has` reported present. -/
def initializeChannel (s : ServiceState) (ev : Event) :
    Except InitError (ServiceState × List Sent) :=
  let m := ev.data
  if m.stateF == some "SYN+ACK" then
    if !(JsMap.hasKey s.channels m.tokenF) then .ok (s, [])
    else
      match JsMap.getKey? s.channels m.tokenF with
      | none => .error .unexistingChannel
      | some channel =>
        let updated : Channel :=
          { token := m.tokenF, destination := m.sourceF
            initialized := true, window := channel.window, state := "ACK" }
        let s1 := { s with channels := JsMap.setKey s.channels m.tokenF updated }
        let sent := postMessageInternalH updated
          { token := m.tokenF, source := s.id, state := "ACK"
            frame := m.frameF.map (fun k => k + 1) }
        .ok (if intervalTruthy s1 then { s1 with timerStopped := true } else s1, sent)
  else if m.stateF == some "SYN" then
    let updated : Channel :=
      { token := m.tokenF, destination := some UNKNOWN_DESTINATION
        initialized := false, window := ev.source, state := "SYN+ACK" }
    let s1 := { s with channels := JsMap.setKey s.channels m.tokenF updated }
    .ok (s1, postMessageInternalH updated
      { token := m.tokenF, source := s.id, state := "SYN+ACK"
        frame := m.frameF.map (fun k => k + 1) })
  else if m.stateF == some "ACK" then
    if !(JsMap.hasKey s.channels m.tokenF) then .ok (s, [])
    else
      match JsMap.getKey? s.channels m.tokenF with
      | none => .error .unexistingChannel
      | some channel =>
        let updated : Channel :=
          { token := m.tokenF, destination := m.sourceF
            initialized := true, window := channel.window, state := "FIN" }
        .ok ({ s with channels := JsMap.setKey s.channels m.tokenF updated }, [])
  else .ok (s, [])

/-- The revised `dispatchEvent` (identical dispatch logic). -/
def dispatchEvent (fails : Nat → Bool) (s : ServiceState) (msg : JsData) :
    List (Nat × JsData) × Bool :=
  if JsMap.hasKey s.channels msg.tokenF then
    Conn.runHandlers fails msg.payloadF s.handlers
  else ([], false)

/-- Everything one call of the revised listener produces. -/
structure ListenerOut where
  state : ServiceState
  sent : List Sent
  invoked : List (Nat × JsData)
  handlerThrew : Bool
deriving DecidableEq, Repr

/-- The revised `listener` (identical routing; the handshake handler's
thrown error is propagated). -/
def listener (fails : Nat → Bool) (s : ServiceState) (ev : Event) :
    Except (ListenerError ⊕ InitError) ListenerOut :=
  if ev.origin != s.target then .error (.inl .originMismatch)
  else if ev.data.truthy then
    if ev.data.stateTruthy then
      match initializeChannel s ev with
      | .error e => .error (.inr e)
      | .ok r => .ok { state := r.1, sent := r.2, invoked := [], handlerThrew := false }
    else
      .ok { state := s, sent := []
            invoked := (dispatchEvent fails s ev.data).1
            handlerThrew := (dispatchEvent fails s ev.data).2 }
  else .ok { state := s, sent := [], invoked := [], handlerThrew := false }

/-- The states a revised service instance can reach. `postMessage` and
`dispatchEvent` never mutate the instance, so they contribute no step;
the bootstrap timer may fire any number of times with any minted token,
frame window and fresh timer handle. -/
inductive Reachable : ServiceState → Prop where
  | construct : ∀ target hasFrame id handle s,
      mkService target hasFrame id handle = .ok s → Reachable s
  | addH : ∀ s handlerId, Reachable s → Reachable (addMessageHandler s handlerId)
  | removeH : ∀ s handlerId, Reachable s → Reachable (removeMessageHandler s handlerId)
  | connect : ∀ s token contentWindow newHandle, Reachable s →
      Reachable (connectToFrame s token contentWindow newHandle).1
  | listen : ∀ fails s ev out, Reachable s →
      listener fails s ev = .ok out → Reachable out.state

end Conn2

namespace JsMap

theorem mem_setKey {α : Type} (m : JsMap α) (k : Option String) (v : α)
    (p : Option String × α) (hp : p ∈ setKey m k v) : p = (k, v) ∨ p ∈ m := by
  unfold setKey at hp
  by_cases h : hasKey m k = true
  · simp only [h, if_true, List.mem_map] at hp
    obtain ⟨q, hq, hpq⟩ := hp
    split at hpq
    · left; exact hpq.symm
    · right; exact hpq ▸ hq
  · rw [if_neg h] at hp
    rcases List.mem_append.1 hp with hp | hp
    · right; exact hp
    · left; simpa using hp

theorem find?_replace_self {α : Type} (m : JsMap α) (k : Option String) (v : α) :
    (m.map (fun p => if (p.1 == k) = true then (k, v) else p)).find? (fun p => p.1 == k)
      = if hasKey m k = true then some (k, v) else none := by
  induction m with
  | nil => rfl
  | cons q m ih =>
    rw [List.map_cons]
    by_cases hq : (q.1 == k) = true
    · rw [if_pos hq, List.find?_cons_of_pos _ (by simp)]
      have hh : hasKey (q :: m) k = true := by simp [hasKey, hq]
      rw [if_pos hh]
    · rw [if_neg hq, List.find?_cons_of_neg _ (by simpa using hq), ih]
      have hh : hasKey (q :: m) k = hasKey m k := by
        simp only [hasKey, List.any_cons]
        rw [show (q.1 == k) = false from by simpa using hq]
        simp
      rw [hh]

theorem find?_replace_ne {α : Type} (m : JsMap α) (k k' : Option String) (v : α)
    (hne : k' ≠ k) :
    (m.map (fun p => if (p.1 == k) = true then (k, v) else p)).find? (fun p => p.1 == k')
      = m.find? (fun p => p.1 == k') := by
  induction m with
  | nil => rfl
  | cons q m ih =>
    rw [List.map_cons]
    by_cases hq : (q.1 == k) = true
    · rw [if_pos hq]
      have hqk : q.1 = k := by simpa using hq
      have hkne : ¬((k, v).1 == k') = true := by
        simp
        exact fun h => hne h.symm
      have hqne : ¬(q.1 == k') = true := by
        rw [hqk]
        simpa using fun h => hne h.symm
      rw [List.find?_cons_of_neg (p := fun r : Option String × α => r.1 == k') _ hkne,
        List.find?_cons_of_neg (p := fun r : Option String × α => r.1 == k') _ hqne, ih]
    · rw [if_neg hq]
      by_cases hq' : (q.1 == k') = true
      · rw [List.find?_cons_of_pos (p := fun r : Option String × α => r.1 == k') _ hq',
          List.find?_cons_of_pos (p := fun r : Option String × α => r.1 == k') _ hq']
      · rw [List.find?_cons_of_neg (p := fun r : Option String × α => r.1 == k') _ hq',
          List.find?_cons_of_neg (p := fun r : Option String × α => r.1 == k') _ hq', ih]

theorem find?_none_of_not_hasKey {α : Type} (m : JsMap α) (k : Option String)
    (h : hasKey m k = false) : m.find? (fun p => p.1 == k) = none := by
  induction m with
  | nil => rfl
  | cons q m ih =>
    simp only [hasKey, List.any_cons, Bool.or_eq_false_iff] at h
    obtain ⟨h1, h2⟩ := h
    rw [List.find?_cons_of_neg _ (by simp [h1]), ih h2]

theorem getKey?_setKey_self {α : Type} (m : JsMap α) (k : Option String) (v : α) :
    getKey? (setKey m k v) k = some v := by
  unfold setKey getKey?
  by_cases h : hasKey m k = true
  · rw [if_pos h, find?_replace_self, if_pos h]
    rfl
  · rw [if_neg h, List.find?_append,
      find?_none_of_not_hasKey m k (by simpa using h)]
    simp [List.find?]

theorem getKey?_setKey_ne {α : Type} (m : JsMap α) (k k' : Option String) (v : α)
    (hne : k' ≠ k) : getKey? (setKey m k v) k' = getKey? m k' := by
  unfold setKey getKey?
  by_cases h : hasKey m k = true
  · rw [if_pos h, find?_replace_ne m k k' v hne]
  · rw [if_neg h, List.find?_append]
    have hb : (k == k') = false := by
      simpa using fun hh => hne hh.symm
    cases hm : m.find? (fun p => p.1 == k') <;> simp [hm, List.find?, hb]

end JsMap

/-- The `forEach`-with-flag scan of `AtLeastOneInitializedChannel` is the
`any` predicate. -/
theorem foldl_flag {α : Type} (pred : α → Bool) (l : List α) (b : Bool) :
    l.foldl (fun acc x => if pred x then true else acc) b = (b || l.any pred) := by
  induction l generalizing b with
  | nil => simp
  | cons x l ih =>
    rw [List.foldl_cons, List.any_cons, ih]
    by_cases h : pred x = true
    · rw [if_pos h, h]
      simp
    · rw [if_neg h, show pred x = false from by simpa using h]
      simp

namespace JsMap

theorem hasKey_of_getKey? {α : Type} (m : JsMap α) (k : Option String) (c : α)
    (h : getKey? m k = some c) : hasKey m k = true := by
  by_contra hh
  rw [getKey?, find?_none_of_not_hasKey m k (by simpa using hh)] at h
  simp at h

end JsMap

/-- Claim C8: an inbound event whose origin differs from the configured
target makes the listener throw `OriginMismatch` before any routing: no
handshake transition, no handler invocation, no outbound message, no
state change (the thrown error is the call's only outcome). -/
theorem claim_C8_origin_mismatch (fails : Nat → Bool) (s : Conn.ServiceState)
    (ev : Event) (h : ev.origin ≠ s.target) :
    Conn.listener fails s ev = .error .originMismatch := by
  unfold Conn.listener
  rw [if_pos (by simpa using h)]

/-- Witness for C8 at a concrete mismatching event. -/
theorem claim_C8_witness :
    Conn.listener (fun _ => false)
      { id := "A", target := "http://a", frameWindow := none, interval := none
        timerStopped := false, handlers := [], channels := [] }
      { origin := "http://b", data := JsData.jsNull, source := none }
      = .error .originMismatch :=
  claim_C8_origin_mismatch _ _ _ (by decide)

/-- Claim C10: an inbound event with matching origin whose `data` is
falsy (null, undefined, 0, empty string or false) makes the listener
return with no effect at all: no channel created or modified, no
handler invoked, no reply sent, timer untouched. -/
theorem claim_C10_falsy_noop (fails : Nat → Bool) (s : Conn.ServiceState)
    (ev : Event) (horigin : ev.origin = s.target) (hfalsy : ev.data.truthy = false) :
    Conn.listener fails s ev
      = .ok { state := s, sent := [], invoked := [], handlerThrew := false } := by
  unfold Conn.listener
  rw [if_neg (by simp [horigin]), if_neg (by simp [hfalsy])]

/-- A concrete service state used by the C10 witness. -/
def c10state : Conn.ServiceState :=
  { id := "A", target := "http://a", frameWindow := none, interval := none
    timerStopped := false, handlers := [7]
    channels := [(some "t",
      { destination := some "B", initialized := true, token := some "t", window := some 1 })] }

/-- Witness for C10 at the concrete falsy payload `0`. -/
theorem claim_C10_witness :
    Conn.listener (fun _ => false) c10state
      { origin := "http://a", data := JsData.jsNum 0, source := some 2 }
      = .ok { state := c10state, sent := [], invoked := [], handlerThrew := false } :=
  claim_C10_falsy_noop _ _ _ rfl rfl

/-- Claim C2: an inbound `SYN+ACK` or `ACK` whose token has no channel
entry, or whose channel is already initialized, changes nothing
(registry, timer, handlers) and sends nothing: the handshake handler
returns the state unchanged with an empty send list. -/
theorem claim_C2_duplicate_noop (s : Conn.ServiceState) (ev : Event)
    (hstate : ev.data.stateF = some "SYN+ACK" ∨ ev.data.stateF = some "ACK")
    (hdup : JsMap.hasKey s.channels ev.data.tokenF = false ∨
      ∃ c, JsMap.getKey? s.channels ev.data.tokenF = some c ∧ c.initialized = true) :
    Conn.initializeChannel s ev = (s, []) := by
  unfold Conn.initializeChannel
  rcases hdup with hdup | hdup
  · have hget : JsMap.getKey? s.channels ev.data.tokenF = none := by
      unfold JsMap.getKey?
      rw [JsMap.find?_none_of_not_hasKey _ _ hdup]
      rfl
    rcases hstate with hstate | hstate <;> simp [hstate, hdup, hget]
  · obtain ⟨c, hc, hinit⟩ := hdup
    have hhas := JsMap.hasKey_of_getKey? _ _ _ hc
    rcases hstate with hstate | hstate <;> simp [hstate, hhas, hc, hinit]

/-- Witness for C2: a duplicate `SYN+ACK` for an already-initialized
channel is a no-op. -/
def c2state : Conn.ServiceState :=
  { id := "A", target := "http://a", frameWindow := none, interval := none
    timerStopped := false, handlers := []
    channels := [(some "t",
      { destination := some "B", initialized := true, token := some "t", window := some 1 })] }

theorem claim_C2_witness :
    Conn.initializeChannel c2state
      { origin := "http://a"
        data := JsData.jsObj (some "t") (some "SYN+ACK") (some "B") (some 2) JsData.jsUndef
        source := some 2 }
      = (c2state, []) :=
  claim_C2_duplicate_noop _ _ (Or.inl rfl) (Or.inr ⟨_, rfl, rfl⟩)

/-- The `AtLeastOneInitializedChannel` scan equals the `any` predicate. -/
theorem AtLeastOne_eq_any (s : Conn.ServiceState) :
    Conn.AtLeastOneInitializedChannel s
      = s.channels.any (fun p => p.2.initialized) := by
  unfold Conn.AtLeastOneInitializedChannel
  rw [foldl_flag]
  exact Bool.false_or _

/-- Claim C3: `postMessage` throws `NoChannel` exactly when the registry
is empty, and `NoInitializedChannel` exactly when the registry is
non-empty but no entry is initialized; a throw produces no state change
and no outbound message (the model returns nothing but the error). -/
theorem claim_C3_postMessage_errors (s : Conn.ServiceState) (d : JsData) :
    (Conn.postMessage s d = .error .noChannel ↔ s.channels = []) ∧
    (Conn.postMessage s d = .error .noInitializedChannel ↔
      (s.channels ≠ [] ∧ ∀ p ∈ s.channels, p.2.initialized = false)) := by
  unfold Conn.postMessage
  by_cases hnil : s.channels = []
  · simp [hnil]
  · have hlen : (s.channels.length == 0) = false := by
      simp [hnil]
    rw [hlen]
    simp only [Bool.false_eq_true, if_false]
    by_cases hany : s.channels.any (fun p => p.2.initialized) = true
    · rw [AtLeastOne_eq_any, hany]
      simp only [Bool.not_true, Bool.false_eq_true, if_false]
      constructor
      · constructor
        · intro h; exact absurd h (by simp)
        · intro h; exact absurd h hnil
      · constructor
        · intro h; exact absurd h (by simp)
        · rintro ⟨-, hall⟩
          obtain ⟨p, hp, hpi⟩ := List.any_eq_true.1 hany
          exact absurd (hall p hp) (by simp [hpi])
    · rw [AtLeastOne_eq_any, show s.channels.any (fun p => p.2.initialized) = false
        from by simpa using hany]
      simp only [Bool.not_false, if_true]
      constructor
      · constructor
        · intro h; exact absurd h (by simp)
        · intro h; exact absurd h hnil
      · constructor
        · intro _
          refine ⟨hnil, fun p hp => ?_⟩
          have hfalse : s.channels.any (fun p => p.2.initialized) = false := by
            simpa using hany
          have hall := List.any_eq_false.1 hfalse
          simpa using hall p hp
        · intro _; trivial

/-- Concrete state for the C1 counterexample: one channel for token
`"t"`, already initialized. -/
def c1state : Conn.ServiceState :=
  { id := "A", target := "http://a", frameWindow := none, interval := none
    timerStopped := false, handlers := []
    channels := [(some "t",
      { destination := some "B", initialized := true, token := some "t", window := some 1 })] }

/-- Concrete inbound `SYN` reusing token `"t"` for the C1 counterexample. -/
def c1event : Event :=
  { origin := "http://a"
    data := JsData.jsObj (some "t") (some "SYN") (some "C") (some 1) JsData.jsUndef
    source := some 5 }

/-- Counterexample to C1 as stated: `c1state` is reachable (construct,
receive `SYN`, receive `ACK`) and holds an initialized channel for
token `"t"`, yet an inbound `SYN` carrying the same token leaves the
registry with a channel for `"t"` whose `initialized` is `false` — the
flag is not monotonic across all handshake messages. -/
theorem claim_C1_counterexample :
    Conn.Reachable c1state ∧
    (JsMap.getKey? c1state.channels (some "t")).map Conn.Channel.initialized = some true ∧
    (JsMap.getKey? (Conn.initializeChannel c1state c1event).1.channels (some "t")).map
      Conn.Channel.initialized = some false := by
  refine ⟨?_, rfl, rfl⟩
  have h0 : Conn.Reachable
      { id := "A", target := "http://a", frameWindow := none, interval := none
        timerStopped := false, handlers := [], channels := [] } :=
    Conn.Reachable.construct "http://a" none "A" 0 _ rfl
  have h1 := Conn.Reachable.listen (fun _ => false) _
      { origin := "http://a"
        data := JsData.jsObj (some "t") (some "SYN") (some "B") (some 1) JsData.jsUndef
        source := some 1 }
      { state := { id := "A", target := "http://a", frameWindow := none, interval := none
                   timerStopped := false, handlers := []
                   channels := [(some "t", ⟨some UNKNOWN_DESTINATION, false, some "t", some 1⟩)] }
        sent := [Sent.handshake ⟨"A", some "t", "SYN+ACK", some 2⟩ 1]
        invoked := [], handlerThrew := false }
      h0 (by decide) rfl
  have h2 := Conn.Reachable.listen (fun _ => false) _
      { origin := "http://a"
        data := JsData.jsObj (some "t") (some "ACK") (some "B") (some 3) JsData.jsUndef
        source := some 1 }
      { state := c1state, sent := [], invoked := [], handlerThrew := false }
      h1 (by decide) rfl
  exact h2

/-- How one handshake message changes the registry: either not at all,
or one entry is rewritten to an initialized channel whose destination is
the message's `source` (a `SYN+ACK`/`ACK` completing a non-initialized
channel), or a `SYN` rewrites one entry to a fresh non-initialized
channel with the `UNKNOWN_DESTINATION` sentinel. -/
theorem initializeChannel_channels (s : Conn.ServiceState) (ev : Event) :
    (Conn.initializeChannel s ev).1.channels = s.channels ∨
    (∃ ch : Conn.Channel,
      JsMap.getKey? s.channels ev.data.tokenF = some ch ∧
      (Conn.initializeChannel s ev).1.channels
        = JsMap.setKey s.channels ev.data.tokenF
            { token := ev.data.tokenF, destination := ev.data.sourceF
              initialized := true, window := ch.window }) ∨
    (ev.data.stateF = some "SYN" ∧
      (Conn.initializeChannel s ev).1.channels
        = JsMap.setKey s.channels ev.data.tokenF
            { token := ev.data.tokenF, destination := some UNKNOWN_DESTINATION
              initialized := false, window := ev.source }) := by
  simp only [Conn.initializeChannel]
  by_cases h1 : (ev.data.stateF == some "SYN+ACK") = true
  · rw [if_pos h1]
    by_cases h2 : JsMap.hasKey s.channels ev.data.tokenF = true
    · rw [if_pos h2]
      cases hg : JsMap.getKey? s.channels ev.data.tokenF with
      | none => left; rfl
      | some ch =>
        dsimp only
        by_cases hchi : ch.initialized = true
        · rw [if_pos hchi]; left; rfl
        · rw [if_neg hchi]
          right; left
          refine ⟨ch, rfl, ?_⟩
          split
          · rfl
          · rfl
    · rw [if_neg h2]; left; rfl
  · rw [if_neg h1]
    by_cases hs : (ev.data.stateF == some "SYN") = true
    · rw [if_pos hs]
      right; right
      exact ⟨by simpa using hs, rfl⟩
    · rw [if_neg hs]
      by_cases ha : (ev.data.stateF == some "ACK") = true
      · rw [if_pos ha]
        by_cases h2 : JsMap.hasKey s.channels ev.data.tokenF = true
        · rw [if_pos h2]
          cases hg : JsMap.getKey? s.channels ev.data.tokenF with
          | none => left; rfl
          | some ch =>
            dsimp only
            by_cases hchi : ch.initialized = true
            · rw [if_pos hchi]; left; rfl
            · rw [if_neg hchi]
              right; left
              exact ⟨ch, rfl, rfl⟩
        · rw [if_neg h2]; left; rfl
      · rw [if_neg ha]; left; rfl

/-- Claim C1 (amended): a channel's `initialized` flag is monotonic
under every inbound handshake message except a `SYN` carrying that
channel's own token (which overwrites the record with a fresh
non-initialized channel): if the registry maps key `t` to an
initialized channel and the message is not a `SYN` for `t`, the
registry still maps `t` to an initialized channel afterwards. -/
theorem claim_C1_monotonic_except_syn (s : Conn.ServiceState) (ev : Event)
    (t : Option String) (c : Conn.Channel)
    (hget : JsMap.getKey? s.channels t = some c)
    (hinit : c.initialized = true)
    (hnotsyn : ev.data.stateF = some "SYN" → ev.data.tokenF ≠ t) :
    ∃ c1, JsMap.getKey? (Conn.initializeChannel s ev).1.channels t = some c1 ∧
      c1.initialized = true := by
  rcases initializeChannel_channels s ev with hchs | ⟨ch, hg, hchs⟩ | ⟨hsyn, hchs⟩
  · exact ⟨c, hchs ▸ hget, hinit⟩
  · by_cases ht : ev.data.tokenF = t
    · subst ht
      exact ⟨⟨ev.data.sourceF, true, ev.data.tokenF, ch.window⟩,
        by rw [hchs, JsMap.getKey?_setKey_self], rfl⟩
    · refine ⟨c, ?_, hinit⟩
      rw [hchs, JsMap.getKey?_setKey_ne _ _ _ _ (fun hh => ht hh.symm)]
      exact hget
  · have ht : ev.data.tokenF ≠ t := hnotsyn hsyn
    refine ⟨c, ?_, hinit⟩
    rw [hchs, JsMap.getKey?_setKey_ne _ _ _ _ (fun hh => ht hh.symm)]
    exact hget

/-- Witness for the amended C1: an `ACK` for a different token leaves
the initialized channel of `c1state` initialized. -/
theorem claim_C1_witness :
    ∃ c1, JsMap.getKey?
        (Conn.initializeChannel c1state
          { origin := "http://a"
            data := JsData.jsObj (some "u") (some "ACK") (some "C") (some 3) JsData.jsUndef
            source := some 5 }).1.channels (some "t") = some c1 ∧
      c1.initialized = true :=
  claim_C1_monotonic_except_syn _ _ _ _ rfl rfl (by decide)

/-- When no handler in the list throws, all of them are invoked in
order and no exception escapes. -/
theorem runHandlers_all_ok (fails : Nat → Bool) (d : JsData) (l : List Nat)
    (hok : ∀ h ∈ l, fails h = false) :
    Conn.runHandlers fails d l = (l.map (fun h => (h, d)), false) := by
  induction l with
  | nil => rfl
  | cons h t ih =>
    simp only [Conn.runHandlers]
    rw [if_neg (by simp [hok h (by simp)])]
    rw [ih (fun g hg => hok g (by simp [hg]))]
    simp

/-- The first throwing handler is the last one invoked: everything
after it is skipped and the exception escapes. -/
theorem runHandlers_prefix_fail (fails : Nat → Bool) (d : JsData)
    (pre : List Nat) (h : Nat) (post : List Nat)
    (hok : ∀ g ∈ pre, fails g = false) (hf : fails h = true) :
    Conn.runHandlers fails d (pre ++ h :: post)
      = ((pre ++ [h]).map (fun g => (g, d)), true) := by
  induction pre with
  | nil =>
    simp only [List.nil_append, Conn.runHandlers, hf, if_true]
    simp
  | cons g t ih =>
    simp only [List.cons_append, Conn.runHandlers]
    rw [if_neg (by simp [hok g (by simp)])]
    simp only [List.append_eq]
    rw [ih (fun x hx => hok x (by simp [hx]))]
    simp

/-- Concrete state for C9: handlers 1 and 2 registered, one channel
known under token `"t"`. -/
def c9state : Conn.ServiceState :=
  { id := "A", target := "http://a", frameWindow := none, interval := none
    timerStopped := false, handlers := [1, 2]
    channels := [(some "t",
      { destination := some "B", initialized := true, token := some "t", window := some 1 })] }

/-- Concrete application message for C9. -/
def c9msg : JsData := JsData.jsObj (some "t") none none none (JsData.jsStr "hello")

/-- Counterexample to C9 as stated: with handlers 1 and 2 registered and
handler 1 throwing, dispatch invokes handler 1 only — handler 2 is
registered but never invoked, because the exception escapes the
`forEach` iteration; one handler's error does prevent the remaining
handlers from running. -/
theorem claim_C9_counterexample :
    Conn.dispatchEvent (fun h => h == 1) c9state c9msg
        = ([(1, JsData.jsStr "hello")], true) ∧
    (2 : Nat) ∈ c9state.handlers ∧
    ((2, JsData.jsStr "hello") ∉ (Conn.dispatchEvent (fun h => h == 1) c9state c9msg).1) := by
  refine ⟨rfl, by decide, by decide⟩

/-- Claim C9 (amended): when the inbound application message's token has
a registry entry, handlers run in insertion order and each is invoked
with the message's `data`; if no registered handler throws, every one
of them is invoked; otherwise the first throwing handler is the last
one invoked and the handlers after it are skipped (its exception
escapes the iteration). -/
theorem claim_C9_handlers (fails : Nat → Bool) (s : Conn.ServiceState) (msg : JsData)
    (htok : JsMap.hasKey s.channels msg.tokenF = true) :
    ((∀ h ∈ s.handlers, fails h = false) →
      Conn.dispatchEvent fails s msg
        = (s.handlers.map (fun h => (h, msg.payloadF)), false)) ∧
    (∀ pre h post, s.handlers = pre ++ h :: post →
      (∀ g ∈ pre, fails g = false) → fails h = true →
      Conn.dispatchEvent fails s msg
        = ((pre ++ [h]).map (fun g => (g, msg.payloadF)), true)) := by
  unfold Conn.dispatchEvent
  rw [if_pos htok]
  constructor
  · intro hok
    exact runHandlers_all_ok fails msg.payloadF s.handlers hok
  · intro pre h post hsplit hok hf
    rw [hsplit]
    exact runHandlers_prefix_fail fails msg.payloadF pre h post hok hf

/-- Witness for the amended C9: with no throwing handler both handlers
of `c9state` are invoked with the payload. -/
theorem claim_C9_witness :
    Conn.dispatchEvent (fun _ => false) c9state c9msg
      = ([(1, JsData.jsStr "hello"), (2, JsData.jsStr "hello")], false) :=
  (claim_C9_handlers (fun _ => false) c9state c9msg rfl).1 (by decide)

/-- The revised `AtLeastOneInitializedChannel` scan equals `any`. -/
theorem AtLeastOne2_eq_any (s : Conn2.ServiceState) :
    Conn2.AtLeastOneInitializedChannel s
      = s.channels.any (fun p => p.2.initialized) := by
  unfold Conn2.AtLeastOneInitializedChannel
  rw [foldl_flag]
  exact Bool.false_or _

/-- Claim C4: with at least one initialized channel, the revised
`postMessage` attempts a send of the wrapped `{token, data}` message on
every initialized channel and on no non-initialized channel; each
attempt is delivered to that channel's own window independently of the
other channels (`delivered = none` is the per-channel send failure of a
missing window and does not affect the other attempts). -/
theorem claim_C4_postMessage_initialized_only (s : Conn2.ServiceState) (d : JsData)
    (hsome : Conn2.AtLeastOneInitializedChannel s = true) :
    ∃ atts, Conn2.postMessage s d = .ok atts ∧
      (∀ p ∈ s.channels, p.2.initialized = true →
        ({ channel := p.2, msg := { token := p.2.token, data := d }
           delivered := p.2.window } : Conn2.Attempt) ∈ atts) ∧
      (∀ a ∈ atts, a.channel.initialized = true ∧
        (∃ k, (k, a.channel) ∈ s.channels) ∧
        a.msg = { token := a.channel.token, data := d } ∧
        a.delivered = a.channel.window) := by
  have hany : s.channels.any (fun p => p.2.initialized) = true := by
    rw [← AtLeastOne2_eq_any]
    exact hsome
  have hnil : s.channels ≠ [] := by
    intro h
    rw [h] at hany
    simp at hany
  refine ⟨s.channels.filterMap (fun p => Conn2.sendToChannel d p.2), ?_, ?_, ?_⟩
  · unfold Conn2.postMessage
    rw [if_neg (by simp [hnil]), if_neg (by simp [hsome])]
  · intro p hp hpinit
    exact List.mem_filterMap.2 ⟨p, hp, by simp [Conn2.sendToChannel, hpinit]⟩
  · intro a ha
    obtain ⟨p, hp, hpa⟩ := List.mem_filterMap.1 ha
    unfold Conn2.sendToChannel at hpa
    by_cases hpi : p.2.initialized = true
    · rw [if_pos hpi] at hpa
      cases hpa
      exact ⟨hpi, ⟨p.1, by simpa using hp⟩, rfl, rfl⟩
    · rw [if_neg hpi] at hpa
      cases hpa

/-- Concrete state for the C4 witness: one initialized channel and one
non-initialized channel. -/
def c4state : Conn2.ServiceState :=
  { id := "A", target := "http://a", interval := none, timerStopped := false
    handlers := []
    channels := [
      (some "t", { destination := some "B", initialized := true, token := some "t"
                   window := some 3, state := "ACK" }),
      (some "u", { destination := some UNKNOWN_DESTINATION, initialized := false
                   token := some "u", window := some 4, state := "SYN" })] }

/-- Witness for C4 at `c4state`. -/
theorem claim_C4_witness :
    ∃ atts, Conn2.postMessage c4state (JsData.jsStr "m") = .ok atts ∧
      (∀ p ∈ c4state.channels, p.2.initialized = true →
        ({ channel := p.2, msg := { token := p.2.token, data := JsData.jsStr "m" }
           delivered := p.2.window } : Conn2.Attempt) ∈ atts) ∧
      (∀ a ∈ atts, a.channel.initialized = true ∧
        (∃ k, (k, a.channel) ∈ c4state.channels) ∧
        a.msg = { token := a.channel.token, data := JsData.jsStr "m" } ∧
        a.delivered = a.channel.window) :=
  claim_C4_postMessage_initialized_only c4state (JsData.jsStr "m") rfl

/-- Concrete responder state for C6: empty registry. -/
def c6state : Conn2.ServiceState :=
  { id := "B", target := "http://a", interval := none, timerStopped := false
    handlers := [], channels := [] }

/-- Concrete inbound `SYN` from peer `"peer"` for C6. -/
def c6event : Event :=
  { origin := "http://a"
    data := JsData.jsObj (some "t") (some "SYN") (some "peer") (some 1) JsData.jsUndef
    source := some 9 }

/-- Counterexample to C6 as stated: after receiving a `SYN` whose
`source` is `"peer"`, the created channel's destination is the
`UNKNOWN_DESTINATION` sentinel — not the message's `source` field as
the claim requires. -/
theorem claim_C6_counterexample :
    (Conn2.initializeChannel c6state c6event).toOption.map
        (fun r => (JsMap.getKey? r.1.channels (some "t")).map Conn2.Channel.destination)
      = some (some (some UNKNOWN_DESTINATION)) ∧
    (some UNKNOWN_DESTINATION : Option String) ≠ some "peer" := by
  exact ⟨rfl, by decide⟩

/-- Claim C6 (amended): on receiving `SYN`, the service creates or
overwrites the channel record for that token with destination equal to
the `UNKNOWN_DESTINATION` sentinel (not the message's `source`, which
is only recorded later from the handshake reply), state `"SYN+ACK"`,
`initialized = false`, the peer handle taken from the event, and
replies with a `SYN+ACK` carrying the same token, its own identity as
source, and the received frame counter plus one. -/
theorem claim_C6_syn_handling (s : Conn2.ServiceState) (ev : Event)
    (t : String) (k : Int) (w : Nat)
    (hstate : ev.data.stateF = some "SYN")
    (htok : ev.data.tokenF = some t)
    (hfr : ev.data.frameF = some k)
    (hw : ev.source = some w) :
    Conn2.initializeChannel s ev = .ok
      ({ s with channels := (JsMap.setKey s.channels (some t)
          ⟨some UNKNOWN_DESTINATION, false, some t, some w, "SYN+ACK"⟩) },
        [Sent.handshake ⟨s.id, some t, "SYN+ACK", some (k + 1)⟩ w]) := by
  simp only [Conn2.initializeChannel]
  rw [hstate, htok, hfr, hw]
  rw [if_neg (by decide), if_pos (by decide)]
  rfl

/-- Witness for the amended C6 at `c6state` and `c6event`. -/
theorem claim_C6_witness :
    Conn2.initializeChannel c6state c6event = .ok
      ({ c6state with channels :=
          [(some "t", ⟨some UNKNOWN_DESTINATION, false, some "t", some 9, "SYN+ACK"⟩)] },
        [Sent.handshake ⟨"B", some "t", "SYN+ACK", some 2⟩ 9]) :=
  claim_C6_syn_handling c6state c6event "t" 1 9 rfl rfl rfl rfl

/-- Replacing one key's value by one that the predicate rejects cannot
increase the predicate count. -/
theorem countP_map_replace_le {α : Type} (m : JsMap α) (k : Option String) (v : α)
    (pred : Option String × α → Bool) (hv : ∀ k', pred (k', v) = false) :
    (m.map (fun p => if p.1 == k then (k, v) else p)).countP pred ≤ m.countP pred := by
  induction m with
  | nil => simp
  | cons q mm ih =>
    simp only [List.map_cons, List.countP_cons]
    by_cases hq : (q.1 == k) = true
    · rw [if_pos hq, hv k]
      have h := ih
      simp only [Bool.false_eq_true, if_false]
      omega
    · rw [if_neg hq]
      have h := ih
      cases hpq : pred q
      · simp only [Bool.false_eq_true, if_false]
        omega
      · rw [if_pos rfl]
        omega

/-- `Map.set` with a value the predicate rejects cannot increase the
predicate count. -/
theorem countP_setKey_le {α : Type} (m : JsMap α) (k : Option String) (v : α)
    (pred : Option String × α → Bool) (hv : ∀ k', pred (k', v) = false) :
    (JsMap.setKey m k v).countP pred ≤ m.countP pred := by
  unfold JsMap.setKey
  split
  · exact countP_map_replace_le m k v pred hv
  · rw [List.countP_append]
    simp [List.countP_cons, hv k]

/-- A successfully constructed revised service starts with no channel. -/
theorem mkService2_channels (target : String) (hasFrame : Bool) (id : String)
    (handle : Nat) (s : Conn2.ServiceState)
    (h : Conn2.mkService target hasFrame id handle = .ok s) : s.channels = [] := by
  unfold Conn2.mkService at h
  split at h
  · exact absurd h (by simp)
  · cases h; rfl

/-- `addMessageHandler` leaves the revised registry untouched. -/
theorem addMessageHandler2_channels (s : Conn2.ServiceState) (hid : Nat) :
    (Conn2.addMessageHandler s hid).channels = s.channels := by
  unfold Conn2.addMessageHandler
  split <;> rfl

/-- `removeMessageHandler` leaves the revised registry untouched. -/
theorem removeMessageHandler2_channels (s : Conn2.ServiceState) (hid : Nat) :
    (Conn2.removeMessageHandler s hid).channels = s.channels := by
  unfold Conn2.removeMessageHandler
  split <;> rfl

/-- A successful revised listener call either keeps the state or hands
it to the handshake handler. -/
theorem listener2_state_cases (fails : Nat → Bool) (s : Conn2.ServiceState) (ev : Event)
    (out : Conn2.ListenerOut) (h : Conn2.listener fails s ev = .ok out) :
    out.state = s ∨ ∃ r, Conn2.initializeChannel s ev = .ok r ∧ out.state = r.1 := by
  unfold Conn2.listener at h
  split at h
  · exact absurd h (by simp)
  · split at h
    · split at h
      · cases hic : Conn2.initializeChannel s ev with
        | error e =>
          rw [hic] at h
          exact absurd h (by simp)
        | ok r =>
          rw [hic] at h
          cases h
          exact Or.inr ⟨r, rfl, rfl⟩
      · cases h
        exact Or.inl rfl
    · cases h
      exact Or.inl rfl

/-- Every registry rewrite the revised handshake handler performs
stores a channel whose `state` is not `"SYN"`. -/
theorem initializeChannel2_channels (s : Conn2.ServiceState) (ev : Event)
    (r : Conn2.ServiceState × List Sent) (h : Conn2.initializeChannel s ev = .ok r) :
    r.1.channels = s.channels ∨
    ∃ v : Conn2.Channel, (v.state == "SYN") = false ∧
      r.1.channels = JsMap.setKey s.channels ev.data.tokenF v := by
  simp only [Conn2.initializeChannel] at h
  by_cases h1 : (ev.data.stateF == some "SYN+ACK") = true
  · rw [if_pos h1] at h
    by_cases h2 : JsMap.hasKey s.channels ev.data.tokenF = true
    · rw [if_neg (by simp [h2])] at h
      cases hg : JsMap.getKey? s.channels ev.data.tokenF with
      | none =>
        rw [hg] at h
        exact absurd h (by simp)
      | some ch =>
        rw [hg] at h
        cases h
        refine Or.inr ⟨⟨ev.data.sourceF, true, ev.data.tokenF, ch.window, "ACK"⟩, rfl, ?_⟩
        split <;> rfl
    · rw [if_pos (by simp [h2])] at h
      cases h
      exact Or.inl rfl
  · rw [if_neg h1] at h
    by_cases hs : (ev.data.stateF == some "SYN") = true
    · rw [if_pos hs] at h
      cases h
      exact Or.inr ⟨⟨some UNKNOWN_DESTINATION, false, ev.data.tokenF, ev.source, "SYN+ACK"⟩, rfl, rfl⟩
    · rw [if_neg hs] at h
      by_cases ha : (ev.data.stateF == some "ACK") = true
      · rw [if_pos ha] at h
        by_cases h2 : JsMap.hasKey s.channels ev.data.tokenF = true
        · rw [if_neg (by simp [h2])] at h
          cases hg : JsMap.getKey? s.channels ev.data.tokenF with
          | none =>
            rw [hg] at h
            exact absurd h (by simp)
          | some ch =>
            rw [hg] at h
            cases h
            exact Or.inr ⟨⟨ev.data.sourceF, true, ev.data.tokenF, ch.window, "FIN"⟩, rfl, rfl⟩
        · rw [if_pos (by simp [h2])] at h
          cases h
          exact Or.inl rfl
      · rw [if_neg ha] at h
        cases h
        exact Or.inl rfl

/-- Claim C5: when the revised bootstrap timer fires, (1) if some
channel has progressed past `"SYN"` the firing changes nothing and
sends nothing; (2) otherwise the registry is cleared and exactly one
fresh channel — newly minted token, `UNKNOWN_DESTINATION`, state
`"SYN"`, not initialized — is inserted; and (3) every reachable state
holds at most one `"SYN"`-state channel. -/
theorem claim_C5_bootstrap :
    (∀ (s : Conn2.ServiceState) (tok : String) (w : Option Nat) (hdl : Nat),
      ((∃ p ∈ s.channels, p.2.state ≠ "SYN") →
        Conn2.connectToFrame s tok w hdl = (s, [])) ∧
      ((∀ p ∈ s.channels, p.2.state = "SYN") →
        (Conn2.connectToFrame s tok w hdl).1.channels
          = [(some tok, ⟨some UNKNOWN_DESTINATION, false, some tok, w, "SYN"⟩)])) ∧
    (∀ s : Conn2.ServiceState, Conn2.Reachable s →
      s.channels.countP (fun p => p.2.state == "SYN") ≤ 1) := by
  constructor
  · intro s tok w hdl
    constructor
    · rintro ⟨p, hp, hps⟩
      unfold Conn2.connectToFrame
      rw [if_pos (List.any_eq_true.2 ⟨p, hp, by simpa using hps⟩)]
    · intro hall
      unfold Conn2.connectToFrame
      rw [if_neg (by
        simp only [List.any_eq_true, not_exists, not_and]
        intro p hp
        simp [hall p hp])]
      rfl
  · intro s hreach
    induction hreach with
    | construct target hasFrame id handle s h =>
      rw [mkService2_channels _ _ _ _ _ h]
      simp
    | addH s hid hr ih =>
      rw [addMessageHandler2_channels]
      exact ih
    | removeH s hid hr ih =>
      rw [removeMessageHandler2_channels]
      exact ih
    | connect s tok w hdl hr ih =>
      unfold Conn2.connectToFrame
      split
      · exact ih
      · refine le_trans (List.countP_le_length _) ?_
        simp [JsMap.setKey, JsMap.hasKey]
    | listen fails s ev out hr heq ih =>
      rcases listener2_state_cases fails s ev out heq with hst | ⟨r, hic, hst⟩
      · rw [hst]
        exact ih
      · rw [hst]
        rcases initializeChannel2_channels s ev r hic with hch | ⟨v, hv, hch⟩
        · rw [hch]
          exact ih
        · rw [hch]
          exact le_trans (countP_setKey_le _ _ _ _ (fun k' => hv)) ih

/-- A freshly constructed revised initiator state for the C5 witness. -/
def c5init : Conn2.ServiceState :=
  { id := "A", target := "http://a", interval := some 3, timerStopped := false
    handlers := [], channels := [] }

/-- Witness for C5: a firing on `c4state` (whose `"ACK"`-state channel
has progressed past `"SYN"`) is a no-op, and the freshly constructed
`c5init` satisfies the at-most-one-`"SYN"` invariant. -/
theorem claim_C5_witness :
    Conn2.connectToFrame c4state "z" (some 5) 8 = (c4state, []) ∧
    c5init.channels.countP (fun p => p.2.state == "SYN") ≤ 1 :=
  ⟨(claim_C5_bootstrap.1 c4state "z" (some 5) 8).1
      ⟨(some "t", ⟨some "B", true, some "t", some 3, "ACK"⟩), by decide, by decide⟩,
    claim_C5_bootstrap.2 c5init
      (Conn2.Reachable.construct "http://a" true "A" 3 c5init rfl)⟩

/-- A successfully constructed `src/connection.ts` service starts with
no channel. -/
theorem mkService_channels (target : String) (fw : Option (Option Nat)) (id : String)
    (handle : Nat) (s : Conn.ServiceState)
    (h : Conn.mkService target fw id handle = .ok s) : s.channels = [] := by
  unfold Conn.mkService at h
  split at h
  · exact absurd h (by simp)
  · cases h; rfl

/-- `addMessageHandler` leaves the registry untouched. -/
theorem addMessageHandler_channels (s : Conn.ServiceState) (hid : Nat) :
    (Conn.addMessageHandler s hid).channels = s.channels := by
  unfold Conn.addMessageHandler
  split <;> rfl

/-- `removeMessageHandler` leaves the registry untouched. -/
theorem removeMessageHandler_channels (s : Conn.ServiceState) (hid : Nat) :
    (Conn.removeMessageHandler s hid).channels = s.channels := by
  unfold Conn.removeMessageHandler
  split <;> rfl

/-- A successful `connectToFrame` call rewrites exactly the minted
token's entry, with a fresh non-initialized channel carrying the
`UNKNOWN_DESTINATION` sentinel. -/
theorem connectToFrame_channels (s : Conn.ServiceState) (token : String)
    (s1 : Conn.ServiceState) (out : List Sent)
    (h : Conn.connectToFrame s token = .ok (s1, out)) :
    ∃ w, s1.channels = JsMap.setKey s.channels (some token)
      ⟨some UNKNOWN_DESTINATION, false, some token, some w⟩ := by
  unfold Conn.connectToFrame at h
  split at h
  · exact absurd h (by simp)
  · exact absurd h (by simp)
  · cases h
    exact ⟨_, rfl⟩

/-- A successful listener call either keeps the state or hands it to
the handshake handler. -/
theorem listener_state_cases (fails : Nat → Bool) (s : Conn.ServiceState) (ev : Event)
    (out : Conn.ListenerOut) (h : Conn.listener fails s ev = .ok out) :
    out.state = s ∨ out.state = (Conn.initializeChannel s ev).1 := by
  unfold Conn.listener at h
  split at h
  · exact absurd h (by simp)
  · split at h
    · split at h
      · cases h
        exact Or.inr rfl
      · cases h
        exact Or.inl rfl
    · cases h
      exact Or.inl rfl

/-- Claim C7: in every reachable state (assuming no inbound event
announces the literal `UNKNOWN_DESTINATION` sentinel as its sender
identity), an initialized channel's destination is never the
`UNKNOWN_DESTINATION` sentinel. -/
theorem claim_C7_initialized_destination (s : Conn.ServiceState)
    (hreach : Conn.Reachable s) :
    ∀ p ∈ s.channels, p.2.initialized = true →
      p.2.destination ≠ some UNKNOWN_DESTINATION := by
  induction hreach with
  | construct target fw id handle s h =>
    intro p hp
    rw [mkService_channels _ _ _ _ _ h] at hp
    cases hp
  | addH s hid hr ih =>
    intro p hp
    rw [addMessageHandler_channels] at hp
    exact ih p hp
  | removeH s hid hr ih =>
    intro p hp
    rw [removeMessageHandler_channels] at hp
    exact ih p hp
  | connect s token s1 out hr hconn ih =>
    intro p hp hpinit
    obtain ⟨w, hch⟩ := connectToFrame_channels s token s1 out hconn
    rw [hch] at hp
    rcases JsMap.mem_setKey _ _ _ _ hp with hp | hp
    · rw [hp] at hpinit
      simp at hpinit
    · exact ih p hp hpinit
  | listen fails s ev out hr hsrc heq ih =>
    intro p hp hpinit
    rcases listener_state_cases fails s ev out heq with hst | hst
    · rw [hst] at hp
      exact ih p hp hpinit
    · rw [hst] at hp
      rcases initializeChannel_channels s ev with hch | ⟨ch, hg, hch⟩ | ⟨hsyn, hch⟩
      · rw [hch] at hp
        exact ih p hp hpinit
      · rw [hch] at hp
        rcases JsMap.mem_setKey _ _ _ _ hp with hp | hp
        · rw [hp]
          exact hsrc
        · exact ih p hp hpinit
      · rw [hch] at hp
        rcases JsMap.mem_setKey _ _ _ _ hp with hp | hp
        · rw [hp] at hpinit
          simp at hpinit
        · exact ih p hp hpinit

/-- A concrete fully handshaken initiator state used by the C7 witness:
constructed, bootstrapped with token `"t"`, then completed by an
inbound `SYN+ACK` from `"B"`. -/
def c7service : Conn.ServiceState :=
  { id := "A", target := "http://a", frameWindow := some (some 7), interval := some 1
    timerStopped := true, handlers := []
    channels := [(some "t",
      { destination := some "B", initialized := true, token := some "t", window := some 7 })] }

/-- `c7service` is reachable: construct, bootstrap, receive `SYN+ACK`. -/
theorem c7service_reachable : Conn.Reachable c7service := by
  have h0 : Conn.Reachable
      { id := "A", target := "http://a", frameWindow := some (some 7), interval := some 1
        timerStopped := false, handlers := [], channels := [] } :=
    Conn.Reachable.construct "http://a" (some (some 7)) "A" 1 _ rfl
  have h1 : Conn.Reachable
      { id := "A", target := "http://a", frameWindow := some (some 7), interval := some 1
        timerStopped := false, handlers := []
        channels := [(some "t",
          { destination := some UNKNOWN_DESTINATION, initialized := false
            token := some "t", window := some 7 })] } :=
    Conn.Reachable.connect _ "t" _ _ h0 rfl
  have h2 := Conn.Reachable.listen (fun _ => false) _
      { origin := "http://a"
        data := JsData.jsObj (some "t") (some "SYN+ACK") (some "B") (some 2) JsData.jsUndef
        source := some 9 }
      { state := c7service
        sent := [Sent.handshake ⟨"A", some "t", "ACK", some 3⟩ 7]
        invoked := [], handlerThrew := false }
      h1 (by decide) rfl
  exact h2

/-- Witness for C7: the initialized channel of the reachable state
`c7service` has a destination other than the sentinel. -/
theorem claim_C7_witness :
    ((some "t", (⟨some "B", true, some "t", some 7⟩ : Conn.Channel))
        : Option String × Conn.Channel).2.destination
      ≠ some UNKNOWN_DESTINATION :=
  claim_C7_initialized_destination c7service c7service_reachable
    (some "t", ⟨some "B", true, some "t", some 7⟩) (by decide) rfl
